import Mathlib

/-!
Verification development for the persona-manager repository.

The definitions below are a shallow embedding of the Python sources under
`src/mcp_persona_server/` (`persona_dispatcher.py`, `context_integration.py`,
`persona_generator.py`, `utils.py`, `types.py`).  Python floats are modelled
as rationals (`ℚ`), Python dicts as insertion-ordered association lists,
Python `None`/missing keys as `Option`, and a raised exception as
`Except.error` (or a returned `raised : Bool` flag where the surrounding
state matters).  Each definition cites the source lines it embeds.
-/

namespace PersonaMgr

/-! ## Python string primitives

`py_in pat text` models the Python expression `pat in text` on strings
(contiguous-substring containment; the empty pattern is contained in every
string, as in Python). -/

/-- `chars_lead pat text` is true when `pat` occurs at the very start of
`text` (Python `text.startswith(pat)` on character lists). -/
def chars_lead : List Char → List Char → Bool
  | [], _ => true
  | _ :: _, [] => false
  | p :: ps, c :: cs => p == c && chars_lead ps cs

/-- Substring containment on character lists. -/
def list_contains_sub (pat : List Char) : List Char → Bool
  | [] => pat.isEmpty
  | c :: cs => chars_lead pat (c :: cs) || list_contains_sub pat cs

/-- Python `pat in text` for strings. -/
def py_in (pat text : String) : Bool :=
  list_contains_sub pat.data text.data

/-- Python `s.lower()` (ASCII case folding, as in every string this program
compares). -/
def py_lower (s : String) : String :=
  ⟨s.data.map Char.toLower⟩

/-- Helper for `py_split`: the accumulator holds the current word reversed. -/
def split_ws_aux : List Char → List Char → List String
  | [], acc => if acc.isEmpty then [] else [⟨acc.reverse⟩]
  | c :: cs, acc =>
    if c.isWhitespace then
      if acc.isEmpty then split_ws_aux cs []
      else ⟨acc.reverse⟩ :: split_ws_aux cs []
    else split_ws_aux cs (c :: acc)

/-- Python `text.split()` : split on whitespace runs, dropping empties. -/
def py_split (s : String) : List String :=
  split_ws_aux s.data []

/-! ## Data model (`types.py`) -/

/-- `TaskCategory` enumeration (`types.py` lines 13-23). -/
inductive TaskCategory where
  | technical
  | creative
  | business
  | educational
  | design
  | scientific
  | consulting
  | mentoring
  | general
deriving DecidableEq, Repr

/-- The `.value` string of each enum member (`types.py` lines 15-23). -/
def TaskCategory.value : TaskCategory → String
  | .technical => "technical"
  | .creative => "creative"
  | .business => "business"
  | .educational => "educational"
  | .design => "design"
  | .scientific => "scientific"
  | .consulting => "consulting"
  | .mentoring => "mentoring"
  | .general => "general"

/-- `TaskContext` dataclass (`types.py` lines 26-35). -/
structure TaskContext where
  task_description : String
  user_context : String
  domain : String
  complexity : String
  urgency : String
  audience : String
  output_format : String
deriving DecidableEq, Repr

/-- A persona record as read by the scorer (`persona_dispatcher.py` uses
`persona_data.get("expertise", [])`, `.get("communication_style","")`,
`.get("context","")`, `.get("personality_traits",[])`, `.get("name","")`;
absent keys behave as these defaults, so we model the record with exactly
those fields). -/
structure Persona where
  name : String
  description : String
  expertise : List String
  communication_style : String
  context : String
  personality_traits : List String
deriving DecidableEq, Repr

/-! ## Association-list model of Python dicts -/

/-- Lookup in an insertion-ordered association list (Python `d[k]` /
`d.get(k)`). -/
def alist_get {α : Type} (l : List (String × α)) (k : String) : Option α :=
  (l.find? (fun p => p.1 = k)).map (fun p => p.2)

/-- Python `d[k] = v`: replace in place when the key exists, append
otherwise. -/
def alist_insert {α : Type} : List (String × α) → String → α → List (String × α)
  | [], k, v => [(k, v)]
  | p :: rest, k, v =>
    if p.1 = k then (k, v) :: rest else p :: alist_insert rest k v

theorem alist_get_insert {α : Type} (l : List (String × α)) (k : String) (v : α) :
    alist_get (alist_insert l k v) k = some v := by
  induction l with
  | nil => simp [alist_get, alist_insert, List.find?]
  | cons p rest ih =>
    by_cases h : p.1 = k
    · simp [alist_insert, h, alist_get, List.find?]
    · simp only [alist_insert, h, if_false]
      simpa [alist_get, List.find?, h] using ih

/-! ## Task analysis (`persona_dispatcher.py` lines 95-217)

`_identify_domain` builds a dict of keyword-hit counts and takes
`max(scores, key=scores.get)`; Python's `max` returns the *first* key whose
count is maximal (it replaces the running best only on a strictly greater
value).  `_assess_complexity`, `_assess_urgency`, `_identify_audience` and
`_identify_output_format` instead iterate their tables in insertion order
and return the first label any of whose indicators occurs as a substring,
falling back to a default. -/

/-- `sum(1 for keyword in keywords if keyword in text)`. -/
def count_hits (keywords : List String) (text : String) : Nat :=
  keywords.countP (fun kw => py_in kw text)

/-- Python `max(pairs, key := snd)` over a nonempty insertion-ordered dict:
keep the running best, replacing it only on a strictly greater value. -/
def py_max_pair {α : Type} (h : α × Nat) (t : List (α × Nat)) : α × Nat :=
  t.foldl (fun best x => if best.2 < x.2 then x else best) h

/-- First label of `table` any of whose keywords occurs in `text`, else
`dflt` (the shared shape of `_assess_complexity`, `_assess_urgency`,
`_identify_audience`, `_identify_output_format`). -/
def first_any_match (table : List (String × List String)) (dflt text : String) : String :=
  match table.find? (fun p => p.2.any (fun kw => py_in kw text)) with
  | some p => p.1
  | none => dflt

/-- `domain_keywords` table (`persona_dispatcher.py` lines 126-135). -/
def domain_keywords : List (String × List String) :=
  [("technology", ["tech", "software", "programming", "code", "system"]),
   ("business", ["business", "market", "strategy", "process", "management"]),
   ("creative", ["creative", "art", "design", "content", "story"]),
   ("education", ["education", "teaching", "learning", "training", "how to", "tutorial",
                  "guide", "instruct", "explain", "demonstrate"]),
   ("science", ["science", "research", "analysis", "data", "experiment"]),
   ("healthcare", ["health", "medical", "patient", "clinical", "diagnosis"]),
   ("finance", ["finance", "investment", "money", "budget", "financial"]),
   ("legal", ["legal", "law", "contract", "compliance", "regulation"])]

/-- The shared shape of `_identify_domain` and
`_determine_domain_from_context`: score every label, then
`max(scores, key=scores.get)`; the default is returned only when the table
is empty (`if scores:`), which never happens for the concrete tables. -/
def first_max_label (table : List (String × List String)) (dflt text : String) : String :=
  match table.map (fun kv => (kv.1, count_hits kv.2 text)) with
  | [] => dflt
  | h :: t => (py_max_pair h t).1

/-- `_identify_domain` (lines 124-144).  The table is nonempty, so the
`return "general"` fallback on the empty-dict case is unreachable. -/
def identify_domain (text : String) : String :=
  first_max_label domain_keywords "general" text

/-- `complexity_indicators` (lines 148-151), in insertion order. -/
def complexity_indicators : List (String × List String) :=
  [("high", ["complex", "advanced", "sophisticated", "intricate", "detailed", "comprehensive"]),
   ("low", ["simple", "basic", "easy", "straightforward", "quick", "simple"])]

/-- `_assess_complexity` (lines 146-157). -/
def assess_complexity (text : String) : String :=
  first_any_match complexity_indicators "medium" text

/-- `urgency_indicators` (lines 161-164). -/
def urgency_indicators : List (String × List String) :=
  [("high", ["urgent", "asap", "emergency", "critical", "immediate", "quickly"]),
   ("low", ["when convenient", "no rush", "take your time", "leisurely"])]

/-- `_assess_urgency` (lines 159-170). -/
def assess_urgency (text : String) : String :=
  first_any_match urgency_indicators "normal" text

/-- `audience_indicators` (lines 174-179). -/
def audience_indicators : List (String × List String) :=
  [("technical", ["developer", "engineer", "technical", "programmer", "architect"]),
   ("business", ["executive", "manager", "business", "stakeholder", "client"]),
   ("expert", ["expert", "specialist", "professional", "advanced"]),
   ("general", ["user", "customer", "general", "public", "beginner"])]

/-- `_identify_audience` (lines 172-185). -/
def identify_audience (text : String) : String :=
  first_any_match audience_indicators "general" text

/-- `format_indicators` (lines 189-194). -/
def format_indicators : List (String × List String) :=
  [("code", ["code", "script", "program", "function", "class", "implementation"]),
   ("analysis", ["analysis", "report", "insights", "findings", "evaluation"]),
   ("creative", ["story", "narrative", "creative", "artistic", "imaginative"]),
   ("documentation", ["documentation", "guide", "manual", "tutorial", "instructions"])]

/-- `_identify_output_format` (lines 187-200). -/
def identify_output_format (text : String) : String :=
  first_any_match format_indicators "text" text

/-- `analyze_task` (lines 95-122): lower-case the concatenation
`f"{task} {context}"` and derive the five attributes. -/
def analyze_task (task_description : String) (context : String := "") : TaskContext :=
  let full_text := py_lower (task_description ++ " " ++ context)
  { task_description := task_description
    user_context := context
    domain := identify_domain full_text
    complexity := assess_complexity full_text
    urgency := assess_urgency full_text
    audience := identify_audience full_text
    output_format := identify_output_format full_text }

/-- `category_keywords` (lines 47-93), in insertion order; duplicated
entries ("strategy" in business, "workshop" in educational) are kept since
the source counts them twice. -/
def category_keywords : List (TaskCategory × List String) :=
  [(.technical,
    ["debug", "code", "programming", "software", "technical", "implementation",
     "algorithm", "system", "architecture", "development", "engineering",
     "python", "javascript", "api", "database", "server", "deployment"]),
   (.creative,
    ["write", "story", "creative", "narrative", "content", "marketing",
     "copy", "brand", "imaginative", "artistic", "expressive", "engaging",
     "storytelling", "creative writing", "content creation"]),
   (.business,
    ["business", "analysis", "strategy", "market", "process", "optimization",
     "data analysis", "insights", "planning", "consulting", "management",
     "strategy", "business case", "roi", "efficiency"]),
   (.educational,
    ["teach", "explain", "educate", "learn", "training", "curriculum",
     "instructional", "pedagogy", "tutorial", "guide", "mentor",
     "educational", "learning", "teaching", "instruction", "how to",
     "step by step", "walkthrough", "demonstrate", "show", "instruct",
     "coach", "help", "assist", "support", "clarify", "break down",
     "simplify", "make easy", "understand", "comprehend", "grasp",
     "follow", "practice", "exercise", "workshop", "lesson", "course",
     "class", "workshop", "seminar", "presentation", "demo", "example"]),
   (.design,
    ["design", "ui", "ux", "visual", "graphic", "aesthetic", "user experience",
     "interface", "branding", "layout", "prototype", "wireframe",
     "design system", "visual design"]),
   (.scientific,
    ["research", "scientific", "methodology", "evidence", "analysis",
     "experiment", "hypothesis", "data", "statistics", "peer review",
     "scientific method", "empirical", "study"]),
   (.consulting,
    ["consult", "advise", "strategy", "problem solving", "organizational",
     "change management", "business consulting", "advisory", "solution",
     "recommendation", "best practices"]),
   (.mentoring,
    ["mentor", "coach", "guide", "support", "development", "career",
     "leadership", "personal development", "growth", "advice",
     "mentoring", "coaching", "guidance"])]

/-- `classify_task` (lines 202-217): score every category, take the first
maximal one, return it when its count is positive, else `GENERAL`. -/
def classify_task (tc : TaskContext) : TaskCategory :=
  let full_text := py_lower (tc.task_description ++ " " ++ tc.user_context)
  match category_keywords.map (fun kv => (kv.1, count_hits kv.2 full_text)) with
  | [] => .general
  | h :: t =>
    let best := py_max_pair h t
    if 0 < best.2 then best.1 else .general

/-! ## Text similarity (`utils.py` lines 104-117) -/

/-- Longest-common-subsequence length with explicit fuel (the fuel makes the
recursion structural; `lcs_length` supplies enough fuel to be exact). -/
def lcs_fuel : Nat → List Char → List Char → Nat
  | 0, _, _ => 0
  | _ + 1, [], _ => 0
  | _ + 1, _, [] => 0
  | fuel + 1, a :: as, b :: bs =>
    if a = b then lcs_fuel fuel as bs + 1
    else max (lcs_fuel fuel as (b :: bs)) (lcs_fuel fuel (a :: as) bs)

/-- Longest-common-subsequence length of two character lists. -/
def lcs_length (a b : List Char) : Nat :=
  lcs_fuel (a.length + b.length) a b

/-- Modelled from the spec: `calculate_similarity_score` in `utils.py`
delegates to Python's `difflib.SequenceMatcher(None, a.lower(), b.lower()).ratio()`,
a standard-library function outside this repository.  The spec (§4.4, §8)
describes it as a sequence-similarity ratio in `[0,1]`, computed as
`2·M / T` where `M` is the number of matched characters and `T` the total
length (difflib returns `1.0` when `T = 0`).  We realize `M` as the
longest-common-subsequence length, which has the same bounds. -/
def calculate_similarity_score (text1 text2 : String) : ℚ :=
  let a := (py_lower text1).data
  let b := (py_lower text2).data
  if a.length + b.length = 0 then 1
  else (2 * (lcs_length a b : ℚ)) / ((a.length : ℚ) + (b.length : ℚ))

/-! ## Persona scoring (`persona_dispatcher.py` lines 351-391 and 507-589)

The source also accumulates a list of human-readable reasoning strings next
to each sub-score; no claim concerns those strings, so only the numeric
score is embedded. -/

/-- `_calculate_expertise_score` (lines 507-520): fraction of the persona's
expertise terms occurring as substrings of the lower-cased task text,
clamped at 1. -/
def calculate_expertise_score (p : Persona) (tc : TaskContext) : ℚ :=
  let task_text := py_lower (tc.task_description ++ " " ++ tc.user_context)
  if p.expertise = [] then 0
  else
    let match_count := p.expertise.countP (fun e => py_in (py_lower e) task_text)
    min ((match_count : ℚ) / (p.expertise.length : ℚ)) 1

/-- `audience_style_preferences` (lines 529-534). -/
def audience_style_preferences : List (String × List String) :=
  [("technical", ["professional", "technical", "analytical"]),
   ("business", ["strategic", "analytical", "professional"]),
   ("general", ["patient", "explanatory", "engaging"]),
   ("expert", ["technical", "analytical", "professional"])]

/-- `_calculate_style_score` (lines 522-542): 1 when the persona's style
contains any style keyword preferred for the task's audience, else 0. -/
def calculate_style_score (p : Persona) (tc : TaskContext) : ℚ :=
  let style := py_lower p.communication_style
  if style = "" then 0
  else
    let preferred := (alist_get audience_style_preferences tc.audience).getD []
    if preferred.any (fun pref => py_in pref style) then 1 else 0

/-- `_calculate_context_score` (lines 544-553): similarity between the
persona's usage-context text and the task text; 0 for an empty context. -/
def calculate_context_score (p : Persona) (tc : TaskContext) : ℚ :=
  let ctx := py_lower p.context
  if ctx = "" then 0
  else
    let task_text := py_lower (tc.task_description ++ " " ++ tc.user_context)
    calculate_similarity_score ctx task_text

/-- `persona_categories` name → category table (lines 558-567), in
insertion order. -/
def persona_categories : List (String × TaskCategory) :=
  [("tech_expert", .technical),
   ("creative_writer", .creative),
   ("business_analyst", .business),
   ("educator", .educational),
   ("designer", .design),
   ("scientist", .scientific),
   ("consultant", .consulting),
   ("mentor", .mentoring)]

/-- Python `key.replace("_", " ")` for the single-character pattern `"_"`. -/
def underscores_to_spaces (s : String) : String :=
  ⟨s.data.map (fun c => if c = '_' then ' ' else c)⟩

/-- `_calculate_category_score` (lines 555-574): the first table key whose
spaced or raw form occurs in the lower-cased persona name decides the
score (1 on category match, 0 on mismatch); 0.5 when no key matches. -/
def calculate_category_score (p : Persona) (task_category : TaskCategory) : ℚ :=
  let persona_name := py_lower p.name
  match persona_categories.find?
      (fun kv => py_in (underscores_to_spaces kv.1) persona_name || py_in kv.1 persona_name) with
  | some kv => if kv.2 = task_category then 1 else 0
  | none => 1/2

/-- `_calculate_trait_score` (lines 576-589): fraction of the persona's
personality traits occurring as substrings of the task text. -/
def calculate_trait_score (p : Persona) (tc : TaskContext) : ℚ :=
  if p.personality_traits = [] then 0
  else
    let task_text := py_lower (tc.task_description ++ " " ++ tc.user_context)
    let match_count := p.personality_traits.countP (fun t => py_in (py_lower t) task_text)
    min ((match_count : ℚ) / (p.personality_traits.length : ℚ)) 1

/-- `_calculate_persona_score` (lines 351-391): the weighted sum
0.35·expertise + 0.25·category + 0.20·context + 0.15·style + 0.05·trait,
clamped by `min(score, 1.0)`. -/
def calculate_persona_score (p : Persona) (tc : TaskContext) (cat : TaskCategory) : ℚ :=
  min (calculate_expertise_score p tc * (35/100)
       + calculate_category_score p cat * (25/100)
       + calculate_context_score p tc * (20/100)
       + calculate_style_score p tc * (15/100)
       + calculate_trait_score p tc * (5/100)) 1

/-- The per-persona score produced inside `select_persona` (lines 254-264):
the raw `_calculate_persona_score` result, multiplied by 1.5 when the
context analysis recommends this persona's id.  No clamp follows the
multiplication in the source. -/
def persona_final_score (tc : TaskContext) (cat : TaskCategory)
    (recommended_ids : List String) (persona_id : String) (p : Persona) : ℚ :=
  let s := calculate_persona_score p tc cat
  if persona_id ∈ recommended_ids then s * (3/2) else s

/-! ## Context integration (`context_integration.py`) -/

/-- `ProjectContext` dataclass (`context_integration.py` lines 18-31).
The `Any`-typed payloads (`current_state`, `conversation_history`) are not
read by any embedded operation and are modelled as opaque strings. -/
structure ProjectContext where
  name : String
  current_goal : String
  completed_features : List String
  current_issues : List String
  next_steps : List String
  current_state : List (String × String)
  key_files : List String
  context_anchors : List String
  conversation_history : List String
  created_at : String
  updated_at : String
deriving DecidableEq, Repr

/-- The dict returned by `analyze_context_for_task`.  On the failure path
(lines 102-103) only `priority`, `domain` and `urgency` keys are present;
the remaining three keys exist only on the success path (lines 105-143),
hence the `Option` fields. -/
structure ContextAnalysis where
  priority : String
  domain : String
  urgency : String
  context_relevance : Option ℚ
  recommended_personas : Option (List String)
  context_insights : Option (List String)
deriving DecidableEq, Repr

/-- `_calculate_text_similarity` (lines 145-159): token Jaccard similarity
between the lower-cased word sets; 0 when either text or word set is
empty.  Set cardinalities are realized by `dedup` counts. -/
def calculate_text_similarity (text1 text2 : String) : ℚ :=
  if text1 = "" || text2 = "" then 0
  else
    let words1 := (py_split (py_lower text1)).dedup
    let words2 := (py_split (py_lower text2)).dedup
    if words1 = [] || words2 = [] then 0
    else
      let inter := words1.filter (fun w => w ∈ words2)
      let union := (words1 ++ words2).dedup
      if union = [] then 0
      else (inter.length : ℚ) / (union.length : ℚ)

/-- The context-scoped domain table of `_determine_domain_from_context`
(lines 163-171). -/
def context_domain_keywords : List (String × List String) :=
  [("technical", ["code", "programming", "software", "technical", "implementation",
                  "debug", "api", "database", "server", "deployment"]),
   ("business", ["business", "analysis", "strategy", "market", "process",
                 "optimization", "roi", "efficiency"]),
   ("creative", ["write", "story", "creative", "narrative", "content",
                 "marketing", "copy", "brand"]),
   ("educational", ["teach", "explain", "educate", "learn", "training",
                    "curriculum", "tutorial"]),
   ("design", ["design", "ui", "ux", "visual", "graphic", "aesthetic",
               "interface", "prototype"]),
   ("scientific", ["research", "scientific", "methodology", "evidence",
                   "analysis", "experiment", "data"]),
   ("consulting", ["consult", "advise", "strategy", "problem solving",
                   "organizational", "solution"])]

/-- `_determine_domain_from_context` (lines 161-185): first-maximal keyword
count over the combined task/goal/issues/steps text. -/
def determine_domain_from_context (context : ProjectContext) (task : String) : String :=
  let combined_text := py_lower (task ++ " " ++ context.current_goal ++ " "
    ++ String.intercalate " " context.current_issues ++ " "
    ++ String.intercalate " " context.next_steps)
  first_max_label context_domain_keywords "general" combined_text

/-- `_recommend_personas_from_context` (lines 187-212).  The `context`
parameter is accepted and never read, as in the source.  Python's
`list(set(...))` has unspecified order; only membership in the result is
ever used downstream (line 261), and `dedup` preserves exactly the same
membership. -/
def recommend_personas_from_context (_context : Option ProjectContext) (task : String) : List String :=
  let t := py_lower task
  let r1 := if ["code", "programming", "software", "technical", "api", "database"].any
      (fun k => py_in k t) then ["tech_expert", "software_engineer"] else []
  let r2 := if ["business", "analysis", "strategy", "market", "process"].any
      (fun k => py_in k t) then ["business_analyst", "domain_specialist"] else []
  let r3 := if ["write", "story", "creative", "content", "marketing"].any
      (fun k => py_in k t) then ["creative_writer", "domain_specialist"] else []
  let r4 := if ["teach", "explain", "educate", "learn", "tutorial"].any
      (fun k => py_in k t) then ["educator", "domain_specialist"] else []
  let r5 := if ["data", "analysis", "statistics", "research"].any
      (fun k => py_in k t) then ["data_scientist", "business_analyst"] else []
  (r1 ++ r2 ++ r3 ++ r4 ++ r5).dedup

/-- Accumulator for the three relevance passes of
`analyze_context_for_task` (lines 114-135). -/
structure CtxAccum where
  priority : String
  urgency : String
  relevance : ℚ
  insights : List String
deriving Repr

/-- `analyze_context_for_task` (lines 99-143).  The `fetched` argument is
the outcome of `get_project_context` (lines 46-89), which catches every
network/service error and every non-200 response and returns `None`; hence
an `Option` input and a total function — no error can propagate.  On
`None` the method returns the three-key default dict of lines 102-103. -/
def analyze_context_for_task (fetched : Option ProjectContext) (task : String) : ContextAnalysis :=
  match fetched with
  | none =>
    { priority := "medium", domain := "general", urgency := "normal",
      context_relevance := none, recommended_personas := none, context_insights := none }
  | some context =>
    let goal_relevance := calculate_text_similarity task context.current_goal
    let a1 : CtxAccum :=
      if goal_relevance > 3/10 then
        { priority := "high", urgency := "normal", relevance := goal_relevance,
          insights := ["Task aligns with current goal: " ++ context.current_goal] }
      else { priority := "medium", urgency := "normal", relevance := 0, insights := [] }
    let a2 := context.current_issues.foldl (fun a issue =>
      let issue_relevance := calculate_text_similarity task issue
      if issue_relevance > 2/5 then
        { a with urgency := "high", relevance := a.relevance + issue_relevance,
                 insights := a.insights ++ ["Task addresses current issue: " ++ issue] }
      else a) a1
    let a3 := context.next_steps.foldl (fun a step =>
      let step_relevance := calculate_text_similarity task step
      if step_relevance > 3/10 then
        { a with priority := "high", relevance := a.relevance + step_relevance,
                 insights := a.insights ++ ["Task supports next step: " ++ step] }
      else a) a2
    { priority := a3.priority,
      domain := determine_domain_from_context context task,
      urgency := a3.urgency,
      context_relevance := some a3.relevance,
      recommended_personas := some (recommend_personas_from_context (some context) task),
      context_insights := some a3.insights }

/-! ## Dispatcher state (`persona_dispatcher.py` lines 35-44) -/

/-- A Python value as stored in a selection-log dict. -/
inductive PyValue where
  | str (s : String)
  | num (q : ℚ)
  | boolean (b : Bool)
deriving DecidableEq, Repr

/-- Python truthiness of a `PyValue`. -/
def PyValue.truthy : PyValue → Bool
  | .str s => s ≠ ""
  | .num q => q ≠ 0
  | .boolean b => b

/-- Per-persona usage statistics (`persona_usage_stats` values, initialized
at lines 607-612). -/
structure UsageStats where
  usage_count : Nat
  avg_confidence : ℚ
  task_categories : List (String × Nat)
deriving DecidableEq, Repr

/-- The fresh-stats record of lines 608-612. -/
def init_usage_stats : UsageStats :=
  { usage_count := 0, avg_confidence := 0, task_categories := [] }

/-- The in-place update of one persona's stats performed by
`_log_persona_selection` (lines 614-624): increment `usage_count`, fold the
confidence into the running average as `(avg·(n−1)+c)/n` with the already
incremented `n`, and bump the per-category counter. -/
def usage_step (u : UsageStats) (confidence : ℚ) (category : String) : UsageStats :=
  let n := u.usage_count + 1
  let avg := (u.avg_confidence * ((n : ℚ) - 1) + confidence) / (n : ℚ)
  let cat_count := (alist_get u.task_categories category).getD 0
  { usage_count := n, avg_confidence := avg,
    task_categories := alist_insert u.task_categories category (cat_count + 1) }

/-- `persona_usage_stats` update of `_log_persona_selection` (lines
607-624): fetch (or initialize) the entry for the selected persona and
apply `usage_step`. -/
def log_selection_update (stats : List (String × UsageStats)) (persona_id : String)
    (confidence : ℚ) (category : String) : List (String × UsageStats) :=
  let u := (alist_get stats persona_id).getD init_usage_stats
  alist_insert stats persona_id (usage_step u confidence category)

/-- The selection-log dict appended to `task_history` by
`_log_persona_selection` (lines 593-604).  Note the fixed key set: no
`auto_generated` key is ever written. -/
def mk_selection_log_entry (timestamp task_description task_category selected_persona : String)
    (confidence_score : ℚ) (domain complexity audience : String) : List (String × PyValue) :=
  [("timestamp", .str timestamp),
   ("task_description", .str task_description),
   ("task_category", .str task_category),
   ("selected_persona", .str selected_persona),
   ("confidence_score", .num confidence_score),
   ("domain", .str domain),
   ("complexity", .str complexity),
   ("audience", .str audience)]

/-- The task-completion dict appended to `task_history` by
`complete_task_with_context_update` (lines 790-796) — the only other
writer of `task_history`; it also carries no `auto_generated` key. -/
def mk_completion_log_entry (task result persona_id timestamp : String)
    (context_updated : Bool) : List (String × PyValue) :=
  [("task", .str task),
   ("result", .str result),
   ("persona_id", .str persona_id),
   ("timestamp", .str timestamp),
   ("context_updated", .boolean context_updated)]

/-- Python `entry.get(key, dflt)` on a log dict. -/
def py_get (entry : List (String × PyValue)) (key : String) (dflt : PyValue) : PyValue :=
  ((entry.find? (fun p => p.1 = key)).map (fun p => p.2)).getD dflt

/-- The `auto_generated_used` counter computed by `get_selection_analytics`
(lines 654-660): the number of history entries whose `auto_generated` key
is truthy, with default `False`.  The early return for an empty history
(lines 634-642) also reports 0, which this count reproduces. -/
def auto_generated_used_count (history : List (List (String × PyValue))) : Nat :=
  (history.filter (fun e => (py_get e "auto_generated" (.boolean false)).truthy)).length

/-- One feedback record appended to `feedback_history` by `record_feedback`
(lines 395-402). -/
structure FeedbackEntry where
  timestamp : String
  task_description : String
  selected_persona : String
  feedback_score : ℤ
  feedback_comment : String
  task_category : String
deriving DecidableEq, Repr

/-- Per-persona performance metrics (`performance_metrics` values,
initialized at lines 407-414). -/
structure PerformanceMetrics where
  total_selections : Nat
  total_feedback : Nat
  average_feedback : ℚ
  feedback_scores : List ℤ
  success_rate : ℚ
deriving DecidableEq, Repr

/-- The fresh-metrics record of lines 408-414. -/
def init_performance_metrics : PerformanceMetrics :=
  { total_selections := 0, total_feedback := 0, average_feedback := 0,
    feedback_scores := [], success_rate := 0 }

/-- The mutable dispatcher attributes (lines 39-44). -/
structure DispatcherState where
  task_history : List (List (String × PyValue))
  persona_usage_stats : List (String × UsageStats)
  auto_generation_enabled : Bool
  confidence_threshold : ℚ
  performance_metrics : List (String × PerformanceMetrics)
  feedback_history : List FeedbackEntry
deriving DecidableEq, Repr

/-- The dispatcher's initial state (lines 39-44): threshold 0.3,
auto-generation enabled, all logs empty. -/
def init_dispatcher_state : DispatcherState :=
  { task_history := [], persona_usage_stats := [], auto_generation_enabled := true,
    confidence_threshold := 3/10, performance_metrics := [], feedback_history := [] }

/-- `record_feedback` (lines 393-428).  The wall-clock timestamp
(`datetime.now()`) is passed in as an argument.  The function body contains
no validation of `feedback_score` and no operation that can raise, so it is
a total function on all integer scores. -/
def record_feedback (st : DispatcherState) (timestamp task_description selected_persona : String)
    (feedback_score : ℤ) (feedback_comment : String) : DispatcherState :=
  let entry : FeedbackEntry :=
    { timestamp := timestamp, task_description := task_description,
      selected_persona := selected_persona, feedback_score := feedback_score,
      feedback_comment := feedback_comment,
      task_category := (classify_task (analyze_task task_description "")).value }
  let m := (alist_get st.performance_metrics selected_persona).getD init_performance_metrics
  let scores := m.feedback_scores ++ [feedback_score]
  let successful := (scores.filter (fun s => 4 ≤ s)).length
  let m' : PerformanceMetrics :=
    { total_selections := m.total_selections + 1,
      total_feedback := m.total_feedback + 1,
      feedback_scores := scores,
      average_feedback := ((scores.map (fun s => (s : ℚ))).sum) / (scores.length : ℚ),
      success_rate := (successful : ℚ) / (scores.length : ℚ) }
  { st with feedback_history := st.feedback_history ++ [entry],
            performance_metrics := alist_insert st.performance_metrics selected_persona m' }

/-- `set_confidence_threshold` (lines 734-740): store the value when it
lies in [0,1]; otherwise raise `ValueError` (modelled by the `Bool`
component) without touching any state. -/
def set_confidence_threshold (st : DispatcherState) (threshold : ℚ) : DispatcherState × Bool :=
  if 0 ≤ threshold ∧ threshold ≤ 1 then
    ({ st with confidence_threshold := threshold }, false)
  else
    (st, true)

/-! ## The generation phase of `select_persona` (lines 277-325)

`select_persona` sorts the scored personas, takes the best, and — when
auto-generation is enabled and the best score is below the threshold —
creates and persists a generated persona and rescores it.  Two facts about
the source are embedded exactly:

* in the branch where the generated persona outscores the prior best
  (lines 301-310), the code sets `generated_persona = None` and on the very
  next line evaluates the f-string `f"... {generated_persona['name']} ..."`,
  which subscripts `None` and raises a `TypeError` that propagates to the
  caller (there is no enclosing `try`);
* in the other branch (lines 311-322) a re-sorted `alternatives` list
  containing the generated persona is computed into a local variable, but
  line 325 unconditionally reassigns `alternatives = persona_scores[1:4]`,
  discarding it.
-/

/-- One entry of the `persona_scores` list (lines 266-271). -/
structure ScoredPersona where
  persona_id : String
  persona_data : Persona
  score : ℚ
deriving DecidableEq, Repr

/-- `persona_scores[1:4]`. -/
def py_slice_1_4 {α : Type} (l : List α) : List α :=
  (l.drop 1).take 3

/-- The generation phase (lines 277-325) followed by the unconditional
`alternatives = persona_scores[1:4]` of line 325, returning the final
`(best, alternatives)` pair or the raised exception.  `generated` is the
result of `generate_persona_for_task` and `create_ok` the success flag of
`persona_manager.create_persona`. -/
def generation_step (auto_generation_enabled : Bool) (confidence_threshold : ℚ)
    (tc : TaskContext) (cat : TaskCategory) (persona_scores : List ScoredPersona)
    (best : ScoredPersona) (generated : Option (String × Persona)) (create_ok : Bool) :
    Except String (ScoredPersona × List ScoredPersona) :=
  if auto_generation_enabled ∧ best.score < confidence_threshold then
    match generated with
    | some (_persona_id, g) =>
      if create_ok then
        let score := calculate_persona_score g tc cat
        if best.score < score then
          -- lines 302-310: `best_persona` is replaced and `generated_persona`
          -- set to `None`, and then the f-string of lines 309-310 evaluates
          -- `generated_persona['name']` — a TypeError on `None`
          Except.error "TypeError: NoneType object is not subscriptable"
        else
          -- lines 312-322 build `alternatives` including the generated
          -- persona, re-sorted and truncated; line 325 then discards that
          -- local and reassigns `persona_scores[1:4]`
          Except.ok (best, py_slice_1_4 persona_scores)
      else Except.ok (best, py_slice_1_4 persona_scores)
    | none => Except.ok (best, py_slice_1_4 persona_scores)
  else Except.ok (best, py_slice_1_4 persona_scores)

/-- The effect of `select_persona` (lines 219-349) on
`context_integration.project_name`: lines 226-229 overwrite it with the
`project_name` argument when one is given (saving the prior value into the
local `original_project`), and no later statement of `select_persona`
writes it again — in contrast to `get_context_summary_for_project` (lines
812-828), which does restore the saved value.  This is the value the field
holds when the call ends, whether it returns or raises. -/
def select_persona_project_effect (current_project : String) (project_name : Option String) : String :=
  match project_name with
  | some p => p
  | none => current_project

/-! ## The amended first-match reading of the task analyzer

Written from the amended claim wording, to be compared with the embedded
analyzer: scan the table in order and return the first label any of whose
keywords occurs, else the default. -/

/-- Specification-style recursion for the four first-match attribute
tables. -/
def spec_first_label : List (String × List String) → String → String → String
  | [], dflt, _ => dflt
  | (label, kws) :: rest, dflt, text =>
    if kws.any (fun kw => py_in kw text) then label
    else spec_first_label rest dflt text

/-! ## Bound lemmas for the scorer -/

theorem lcs_fuel_le (f : Nat) :
    ∀ a b : List Char, lcs_fuel f a b ≤ a.length ∧ lcs_fuel f a b ≤ b.length := by
  induction f with
  | zero => intro a b; simp [lcs_fuel]
  | succ n ih =>
    intro a b
    match a, b with
    | [], b => simp [lcs_fuel]
    | a :: as, [] => simp [lcs_fuel]
    | a :: as, b :: bs =>
      simp only [lcs_fuel, List.length_cons]
      by_cases h : a = b
      · rw [if_pos h]
        exact ⟨Nat.succ_le_succ (ih as bs).1, Nat.succ_le_succ (ih as bs).2⟩
      · rw [if_neg h]
        refine ⟨Nat.max_le.mpr ⟨?_, ?_⟩, Nat.max_le.mpr ⟨?_, ?_⟩⟩
        · exact Nat.le_succ_of_le (ih as (b :: bs)).1
        · simpa using (ih (a :: as) bs).1
        · simpa using (ih as (b :: bs)).2
        · exact Nat.le_succ_of_le (ih (a :: as) bs).2

theorem calculate_similarity_score_bounds (t1 t2 : String) :
    0 ≤ calculate_similarity_score t1 t2 ∧ calculate_similarity_score t1 t2 ≤ 1 := by
  unfold calculate_similarity_score
  dsimp only
  split
  · norm_num
  · rename_i h
    have hpos : (0:ℚ) < ((py_lower t1).data.length : ℚ) + ((py_lower t2).data.length : ℚ) := by
      have : 0 < (py_lower t1).data.length + (py_lower t2).data.length := Nat.pos_of_ne_zero h
      exact_mod_cast this
    constructor
    · positivity
    · rw [div_le_one hpos]
      have h1 := (lcs_fuel_le ((py_lower t1).data.length + (py_lower t2).data.length)
        (py_lower t1).data (py_lower t2).data).1
      have h2 := (lcs_fuel_le ((py_lower t1).data.length + (py_lower t2).data.length)
        (py_lower t1).data (py_lower t2).data).2
      have key : 2 * lcs_length (py_lower t1).data (py_lower t2).data
          ≤ (py_lower t1).data.length + (py_lower t2).data.length := by
        unfold lcs_length; omega
      exact_mod_cast key

theorem calculate_expertise_score_bounds (p : Persona) (tc : TaskContext) :
    0 ≤ calculate_expertise_score p tc ∧ calculate_expertise_score p tc ≤ 1 := by
  unfold calculate_expertise_score
  dsimp only
  split
  · norm_num
  · exact ⟨le_min (by positivity) zero_le_one, min_le_right _ _⟩

theorem calculate_style_score_bounds (p : Persona) (tc : TaskContext) :
    0 ≤ calculate_style_score p tc ∧ calculate_style_score p tc ≤ 1 := by
  unfold calculate_style_score
  dsimp only
  split
  · norm_num
  · split <;> norm_num

theorem calculate_context_score_bounds (p : Persona) (tc : TaskContext) :
    0 ≤ calculate_context_score p tc ∧ calculate_context_score p tc ≤ 1 := by
  unfold calculate_context_score
  dsimp only
  split
  · norm_num
  · exact calculate_similarity_score_bounds _ _

theorem calculate_category_score_bounds (p : Persona) (cat : TaskCategory) :
    0 ≤ calculate_category_score p cat ∧ calculate_category_score p cat ≤ 1 := by
  unfold calculate_category_score
  dsimp only
  split
  · split <;> norm_num
  · norm_num

theorem calculate_trait_score_bounds (p : Persona) (tc : TaskContext) :
    0 ≤ calculate_trait_score p tc ∧ calculate_trait_score p tc ≤ 1 := by
  unfold calculate_trait_score
  dsimp only
  split
  · norm_num
  · exact ⟨le_min (by positivity) zero_le_one, min_le_right _ _⟩

/-- Shared bound on the raw weighted score: the clamp gives the upper
bound and nonnegativity of the five sub-scores the lower one. -/
theorem calculate_persona_score_bounds (p : Persona) (tc : TaskContext) (cat : TaskCategory) :
    0 ≤ calculate_persona_score p tc cat ∧ calculate_persona_score p tc cat ≤ 1 := by
  obtain ⟨he, -⟩ := calculate_expertise_score_bounds p tc
  obtain ⟨hc, -⟩ := calculate_category_score_bounds p cat
  obtain ⟨hx, -⟩ := calculate_context_score_bounds p tc
  obtain ⟨hs, -⟩ := calculate_style_score_bounds p tc
  obtain ⟨ht, -⟩ := calculate_trait_score_bounds p tc
  unfold calculate_persona_score
  refine ⟨le_min (by nlinarith) zero_le_one, min_le_right _ _⟩

/-! ## Concrete data used by witnesses and counterexamples -/

/-- A catalog persona in the shape of Scenario A of the spec. -/
def p_tech_ex : Persona :=
  { name := "Tech Expert", description := "", expertise := ["debug", "code"],
    communication_style := "engaging", context := "", personality_traits := [] }

/-- `analyze_task "debug code" ""` evaluates to exactly this record. -/
def tc_debug_ex : TaskContext :=
  { task_description := "debug code", user_context := "", domain := "technology",
    complexity := "medium", urgency := "normal", audience := "general",
    output_format := "code" }

/-- A fetched project context with empty goal/issues/steps. -/
def project_ex : ProjectContext :=
  { name := "persona-manager-mcp", current_goal := "", completed_features := [],
    current_issues := [], next_steps := [], current_state := [], key_files := [],
    context_anchors := [], conversation_history := [], created_at := "", updated_at := "" }

/-! ## Claims C1 and C6 -/

/-- Claim C6 (confirmed): for every persona record, task context and task
category, the weighted-sum score of `_calculate_persona_score` — weights
0.35/0.25/0.20/0.15/0.05 with a final clamp at 1.0 — lies in [0, 1]. -/
theorem calculate_persona_score_in_unit_interval (p : Persona) (tc : TaskContext)
    (cat : TaskCategory) :
    0 ≤ calculate_persona_score p tc cat ∧ calculate_persona_score p tc cat ≤ 1 :=
  calculate_persona_score_bounds p tc cat

/-- Claim C1 (amended): context boosting never lowers a score, but the 1.0
clamp is applied inside `_calculate_persona_score` *before* the 1.5×
boost of line 262, and nothing clamps afterwards, so a boosted score equals
1.5 × raw score (raw already ≤ 1) and the produced confidence lies in
[0, 1.5] — not [0, 1], and not min(1, 1.5 × raw). -/
theorem boosted_score_monotone_and_bounded (tc : TaskContext) (cat : TaskCategory)
    (recommended_ids : List String) (persona_id : String) (p : Persona) :
    0 ≤ persona_final_score tc cat recommended_ids persona_id p ∧
    persona_final_score tc cat recommended_ids persona_id p ≤ 3/2 ∧
    calculate_persona_score p tc cat ≤ persona_final_score tc cat recommended_ids persona_id p := by
  obtain ⟨h0, h1⟩ := calculate_persona_score_bounds p tc cat
  unfold persona_final_score
  dsimp only
  split
  · exact ⟨by nlinarith, by nlinarith, by nlinarith⟩
  · exact ⟨h0, by linarith, le_refl _⟩

/-- Claim C1 counterexample: for the catalog persona "Tech Expert"
(expertise debug/code, engaging style) on the task "debug code", with the
context analysis of a fetched project recommending "tech_expert", the raw
score is 0.75 but the produced confidence is 1.125 — outside [0,1] and
different from min(1, 1.5 × 0.75) = 1, refuting the claimed clamp. -/
theorem boosted_score_can_exceed_one :
    analyze_task "debug code" "" = tc_debug_ex ∧
    classify_task tc_debug_ex = .technical ∧
    "tech_expert" ∈ ((analyze_context_for_task (some project_ex) "debug code").recommended_personas.getD []) ∧
    calculate_persona_score p_tech_ex tc_debug_ex .technical = 3/4 ∧
    persona_final_score tc_debug_ex .technical
      ((analyze_context_for_task (some project_ex) "debug code").recommended_personas.getD [])
      "tech_expert" p_tech_ex = 9/8 ∧
    ¬ (persona_final_score tc_debug_ex .technical
      ((analyze_context_for_task (some project_ex) "debug code").recommended_personas.getD [])
      "tech_expert" p_tech_ex ≤ 1) ∧
    min 1 ((3/2) * calculate_persona_score p_tech_ex tc_debug_ex .technical) = 1 := by
  have hrec : (analyze_context_for_task (some project_ex) "debug code").recommended_personas
      = some (recommend_personas_from_context (some project_ex) "debug code") := rfl
  have hmem : "tech_expert" ∈ recommend_personas_from_context (some project_ex) "debug code" := by
    decide
  have hscore : calculate_persona_score p_tech_ex tc_debug_ex .technical = 3/4 := by
    simp +decide [calculate_persona_score, calculate_expertise_score, calculate_category_score,
      calculate_context_score, calculate_style_score, calculate_trait_score,
      p_tech_ex, tc_debug_ex, persona_categories, audience_style_preferences, alist_get]
    norm_num
  have hfinal : persona_final_score tc_debug_ex .technical
      ((analyze_context_for_task (some project_ex) "debug code").recommended_personas.getD [])
      "tech_expert" p_tech_ex = 9/8 := by
    rw [hrec]
    unfold persona_final_score
    dsimp only
    rw [if_pos (by exact hmem), hscore]
    norm_num
  refine ⟨by decide, by decide, ?_, hscore, hfinal, ?_, ?_⟩
  · rw [hrec]; exact hmem
  · rw [hfinal]; norm_num
  · rw [hscore]; norm_num

/-! ## Claim C3 -/

theorem py_max_pair_correct {α : Type} (h : α × Nat) (t : List (α × Nat)) :
    py_max_pair h t ∈ h :: t ∧ ∀ x ∈ h :: t, x.2 ≤ (py_max_pair h t).2 := by
  induction t generalizing h with
  | nil => exact ⟨by simp [py_max_pair], by simp [py_max_pair]⟩
  | cons x xs ih =>
    have hstep : py_max_pair h (x :: xs) = py_max_pair (if h.2 < x.2 then x else h) xs := rfl
    obtain ⟨ihmem, ihle⟩ := ih (if h.2 < x.2 then x else h)
    constructor
    · rw [hstep]
      rcases List.mem_cons.mp ihmem with hm | hm
      · rw [hm]
        by_cases hc : h.2 < x.2
        · rw [if_pos hc]; simp
        · rw [if_neg hc]; simp
      · simp [List.mem_cons, hm]
    · intro y hy
      rw [hstep]
      have hb : (if h.2 < x.2 then x else h).2 ≤ (py_max_pair (if h.2 < x.2 then x else h) xs).2 :=
        ihle _ (by simp)
      rcases List.mem_cons.mp hy with hm | hm
      · subst hm
        refine le_trans ?_ hb
        by_cases hc : y.2 < x.2
        · rw [if_pos hc]; exact le_of_lt hc
        · rw [if_neg hc]
      · rcases List.mem_cons.mp hm with hm' | hm'
        · subst hm'
          refine le_trans ?_ hb
          by_cases hc : h.2 < y.2
          · rw [if_pos hc]
          · rw [if_neg hc]; exact le_of_not_lt hc
        · exact ihle y (by simp [hm'])

theorem py_max_pair_keep {α : Type} (h : α × Nat) (t : List (α × Nat))
    (hall : ∀ x ∈ t, ¬ h.2 < x.2) : py_max_pair h t = h := by
  induction t with
  | nil => rfl
  | cons x xs ih =>
    have hx : ¬ h.2 < x.2 := hall x (by simp)
    have hstep : py_max_pair h (x :: xs) = py_max_pair h xs := by
      show py_max_pair (if h.2 < x.2 then x else h) xs = py_max_pair h xs
      rw [if_neg hx]
    rw [hstep]
    exact ih (fun y hy => hall y (by simp [hy]))

theorem first_max_label_argmax (table : List (String × List String)) (dflt text : String)
    (hne : table ≠ []) :
    ∃ kv ∈ table, first_max_label table dflt text = kv.1 ∧
      ∀ kv' ∈ table, count_hits kv'.2 text ≤ count_hits kv.2 text := by
  cases table with
  | nil => exact absurd rfl hne
  | cons h t =>
    have hred : first_max_label (h :: t) dflt text
        = (py_max_pair (h.1, count_hits h.2 text)
            (t.map (fun kv => (kv.1, count_hits kv.2 text)))).1 := by
      simp [first_max_label]
    obtain ⟨hmem, hall⟩ := py_max_pair_correct (h.1, count_hits h.2 text)
        (t.map (fun kv => (kv.1, count_hits kv.2 text)))
    have hmem' : py_max_pair (h.1, count_hits h.2 text)
          (t.map (fun kv => (kv.1, count_hits kv.2 text)))
        ∈ (h :: t).map (fun kv => (kv.1, count_hits kv.2 text)) := by
      simpa using hmem
    obtain ⟨kv, hkv, hkveq⟩ := List.mem_map.mp hmem'
    refine ⟨kv, hkv, ?_, ?_⟩
    · rw [hred, ← hkveq]
    · intro kv' hkv'
      have hin : (kv'.1, count_hits kv'.2 text)
          ∈ (h.1, count_hits h.2 text) :: t.map (fun kv => (kv.1, count_hits kv.2 text)) := by
        have : (kv'.1, count_hits kv'.2 text)
            ∈ (h :: t).map (fun kv => (kv.1, count_hits kv.2 text)) :=
          List.mem_map_of_mem _ hkv'
        simpa using this
      have hle := hall _ hin
      have hsnd : (py_max_pair (h.1, count_hits h.2 text)
          (t.map (fun kv => (kv.1, count_hits kv.2 text)))).2 = count_hits kv.2 text := by
        rw [← hkveq]
      rw [hsnd] at hle
      exact hle

theorem first_max_label_all_zero (table : List (String × List String))
    (h : String × List String) (t : List (String × List String)) (dflt text : String)
    (htab : table = h :: t)
    (h0 : ∀ kv ∈ table, count_hits kv.2 text = 0) :
    first_max_label table dflt text = h.1 := by
  subst htab
  have hred : first_max_label (h :: t) dflt text
      = (py_max_pair (h.1, count_hits h.2 text)
          (t.map (fun kv => (kv.1, count_hits kv.2 text)))).1 := by
    simp [first_max_label]
  rw [hred, py_max_pair_keep]
  intro x hx
  obtain ⟨kv, hkv, hkveq⟩ := List.mem_map.mp hx
  have hxz : x.2 = 0 := by rw [← hkveq]; exact h0 kv (by simp [hkv])
  simp [hxz]

theorem first_any_match_eq_spec (table : List (String × List String)) (dflt text : String) :
    first_any_match table dflt text = spec_first_label table dflt text := by
  induction table with
  | nil => rfl
  | cons p rest ih =>
    obtain ⟨label, kws⟩ := p
    by_cases hc : kws.any (fun kw => py_in kw text) = true
    · simp [first_any_match, spec_first_label, List.find?_cons, hc]
    · simp only [Bool.not_eq_true] at hc
      simp only [first_any_match, spec_first_label, List.find?_cons, hc]
      simpa [first_any_match] using ih

/-- Claim C3 (amended): `analyze_task` lower-cases `task + " " + context`
once and derives the five attributes from it, but the selection rules are:
domain takes the *first* label whose keyword-presence count is maximal
(Python `max` keeps the first maximum), so an all-zero tie yields
"technology", the first table entry — not "general"; complexity, urgency,
audience and output format do not count at all: each returns the first
label of its table, in insertion order, any of whose keywords occurs as a
substring, with defaults medium/normal/general/text when none occurs. -/
theorem analyze_task_first_match_semantics (task context : String) :
    (∃ kv ∈ domain_keywords, (analyze_task task context).domain = kv.1 ∧
      ∀ kv' ∈ domain_keywords,
        count_hits kv'.2 (py_lower (task ++ " " ++ context))
          ≤ count_hits kv.2 (py_lower (task ++ " " ++ context))) ∧
    ((∀ kv ∈ domain_keywords, count_hits kv.2 (py_lower (task ++ " " ++ context)) = 0) →
      (analyze_task task context).domain = "technology") ∧
    (analyze_task task context).complexity
      = spec_first_label complexity_indicators "medium" (py_lower (task ++ " " ++ context)) ∧
    (analyze_task task context).urgency
      = spec_first_label urgency_indicators "normal" (py_lower (task ++ " " ++ context)) ∧
    (analyze_task task context).audience
      = spec_first_label audience_indicators "general" (py_lower (task ++ " " ++ context)) ∧
    (analyze_task task context).output_format
      = spec_first_label format_indicators "text" (py_lower (task ++ " " ++ context)) := by
  refine ⟨?_, ?_, ?_, ?_, ?_, ?_⟩
  · exact first_max_label_argmax domain_keywords "general"
      (py_lower (task ++ " " ++ context)) (by decide)
  · intro h0
    exact first_max_label_all_zero domain_keywords
      ("technology", ["tech", "software", "programming", "code", "system"]) _ "general"
      (py_lower (task ++ " " ++ context)) rfl h0
  · exact first_any_match_eq_spec complexity_indicators "medium" _
  · exact first_any_match_eq_spec urgency_indicators "normal" _
  · exact first_any_match_eq_spec audience_indicators "general" _
  · exact first_any_match_eq_spec format_indicators "text" _

/-- Claim C3 counterexample: on the empty task and context every domain
keyword count is zero, yet `analyze_task` returns domain "technology",
not the claimed default "general". -/
theorem analyze_task_all_zero_domain_not_general :
    (∀ kv ∈ domain_keywords, count_hits kv.2 (py_lower ("" ++ " " ++ "")) = 0) ∧
    (analyze_task "" "").domain = "technology" ∧
    (analyze_task "" "").domain ≠ "general" := by
  decide

/-- Witness for the amended C3 theorem at the empty input. -/
theorem analyze_task_first_match_semantics_witness :
    (∀ kv ∈ domain_keywords, count_hits kv.2 (py_lower ("" ++ " " ++ "")) = 0) ∧
    (analyze_task "" "").domain = "technology" :=
  ⟨by decide, (analyze_task_first_match_semantics "" "").2.1 (by decide)⟩

/-! ## Claim C5 -/

/-- Claim C5 (amended): when fetching the project context fails (every
network/service error, timeout and non-200 response makes
`get_project_context` return `None`), `analyze_context_for_task` returns —
without raising — the three-key default `priority="medium"`,
`domain="general"`, `urgency="normal"`; the `context_relevance`,
`recommended_personas` and `context_insights` keys are *absent* from that
dict, and the callers that read them do so with `.get(..., default)`,
observing 0, [] and []. -/
theorem analyze_context_failure_defaults (task : String) :
    analyze_context_for_task none task
      = { priority := "medium", domain := "general", urgency := "normal",
          context_relevance := none, recommended_personas := none, context_insights := none } ∧
    (analyze_context_for_task none task).context_relevance.getD 0 = 0 ∧
    (analyze_context_for_task none task).recommended_personas.getD [] = [] ∧
    (analyze_context_for_task none task).context_insights.getD [] = [] :=
  ⟨rfl, rfl, rfl, rfl⟩

/-- Claim C5 counterexample: the failure-path dict does not contain the
`context_relevance`/`recommended_personas`/`context_insights` fields that
the claim says it contains — the fields are absent, not 0/[]/[]. -/
theorem analyze_context_failure_omits_keys :
    (analyze_context_for_task none "debug code").context_relevance = none ∧
    (analyze_context_for_task none "debug code").context_relevance ≠ some 0 ∧
    (analyze_context_for_task none "debug code").recommended_personas ≠ some [] ∧
    (analyze_context_for_task none "debug code").context_insights ≠ some [] := by
  refine ⟨rfl, by simp [analyze_context_for_task], by simp [analyze_context_for_task],
    by simp [analyze_context_for_task]⟩

/-! ## Claim C4 -/

/-- Claim C4 (code bug): `select_persona` overwrites the ContextIntegrator's
`project_name` with the given project and saves the prior value into the
local `original_project`, but no statement of `select_persona` ever writes
the field again — the saved value is dead and the override survives the
call, instead of being restored as the spec (and the sibling method
`get_context_summary_for_project`, which does restore) intends. -/
theorem select_persona_project_override_not_restored :
    select_persona_project_effect "persona-manager-mcp" (some "other-project") = "other-project" ∧
    "other-project" ≠ "persona-manager-mcp" ∧
    select_persona_project_effect "persona-manager-mcp" none = "persona-manager-mcp" :=
  ⟨rfl, by decide, rfl⟩

/-! ## Claim C2 -/

/-- A persona matching nothing in the "debug code" task: its score is the
bare uncategorized-default 0.5 × 0.25 = 0.125. -/
def p_blank_ex : Persona :=
  { name := "nobody", description := "", expertise := ["quantum"],
    communication_style := "silent", context := "", personality_traits := ["quiet"] }

/-- A second non-matching persona (also scoring 0.125). -/
def p_blank2_ex : Persona :=
  { name := "nemo", description := "", expertise := ["warp"],
    communication_style := "mute", context := "", personality_traits := ["shy"] }

/-- A generated persona that outscores the blanks on "debug code"
(0.35 expertise + 0.125 default category + 0.15 style = 0.625). -/
def p_generated_ex : Persona :=
  { name := "software engineer", description := "", expertise := ["debug", "code"],
    communication_style := "engaging", context := "", personality_traits := [] }

/-- A generated persona that does not outscore the prior best (0.125). -/
def p_gen_low_ex : Persona :=
  { name := "generalist", description := "", expertise := ["telepathy"],
    communication_style := "calm", context := "", personality_traits := [] }

/-- `persona_scores` entry for `p_blank_ex`. -/
def scored_blank_ex : ScoredPersona :=
  { persona_id := "p0", persona_data := p_blank_ex,
    score := calculate_persona_score p_blank_ex tc_debug_ex .technical }

/-- `persona_scores` entry for `p_blank2_ex`. -/
def scored_blank2_ex : ScoredPersona :=
  { persona_id := "p2", persona_data := p_blank2_ex,
    score := calculate_persona_score p_blank2_ex tc_debug_ex .technical }

/-- Claim C2 (code bug): with auto-generation enabled, threshold 0.9 and a
best existing score of 0.125, a generated persona scoring 0.625 makes the
replace-winner branch run `generated_persona = None` and then evaluate
`generated_persona['name']` in the log f-string — `select_persona` raises
a `TypeError` instead of returning the generated persona as the selection;
and when the generated persona scores lower (0.125, not strictly greater),
the re-sorted alternatives list built at lines 312-322 is discarded by the
unconditional `alternatives = persona_scores[1:4]` at line 325, so the
generated persona never appears among the returned alternatives. -/
theorem generation_branch_raises_and_discards_alternatives :
    calculate_persona_score p_blank_ex tc_debug_ex .technical = 1/8 ∧
    calculate_persona_score p_generated_ex tc_debug_ex .technical = 5/8 ∧
    calculate_persona_score p_gen_low_ex tc_debug_ex .technical = 1/8 ∧
    generation_step true (9/10) tc_debug_ex .technical [scored_blank_ex] scored_blank_ex
      (some ("ai_software_engineer_20250101_000000", p_generated_ex)) true
      = Except.error "TypeError: NoneType object is not subscriptable" ∧
    generation_step true (9/10) tc_debug_ex .technical [scored_blank_ex, scored_blank2_ex]
      scored_blank_ex (some ("generalist_20250101_000000", p_gen_low_ex)) true
      = Except.ok (scored_blank_ex, [scored_blank2_ex]) ∧
    "generalist_20250101_000000" ≠ scored_blank2_ex.persona_id := by
  have hb : calculate_persona_score p_blank_ex tc_debug_ex .technical = 1/8 := by
    simp +decide [calculate_persona_score, calculate_expertise_score, calculate_category_score,
      calculate_context_score, calculate_style_score, calculate_trait_score,
      p_blank_ex, tc_debug_ex, persona_categories, audience_style_preferences, alist_get]
    norm_num
  have hg : calculate_persona_score p_generated_ex tc_debug_ex .technical = 5/8 := by
    simp +decide [calculate_persona_score, calculate_expertise_score, calculate_category_score,
      calculate_context_score, calculate_style_score, calculate_trait_score,
      p_generated_ex, tc_debug_ex, persona_categories, audience_style_preferences, alist_get]
    norm_num
  have hl : calculate_persona_score p_gen_low_ex tc_debug_ex .technical = 1/8 := by
    simp +decide [calculate_persona_score, calculate_expertise_score, calculate_category_score,
      calculate_context_score, calculate_style_score, calculate_trait_score,
      p_gen_low_ex, tc_debug_ex, persona_categories, audience_style_preferences, alist_get]
    norm_num
  have hbs : scored_blank_ex.score = 1/8 := hb
  refine ⟨hb, hg, hl, ?_, ?_, by decide⟩
  · unfold generation_step
    rw [if_pos ⟨rfl, by rw [hbs]; norm_num⟩]
    dsimp only
    rw [if_pos rfl, if_pos (by rw [hbs, hg]; norm_num)]
  · unfold generation_step
    rw [if_pos ⟨rfl, by rw [hbs]; norm_num⟩]
    dsimp only
    rw [if_pos rfl, if_neg (by rw [hbs, hl]; norm_num)]
    rfl

/-! ## Claim C7 -/

theorem usage_step_fold_invariant (cat : String) (confs : List ℚ) :
    ∀ u : UsageStats,
      (confs.foldl (fun a c => usage_step a c cat) u).usage_count
        = u.usage_count + confs.length ∧
      (confs.foldl (fun a c => usage_step a c cat) u).avg_confidence
          * ((u.usage_count : ℚ) + (confs.length : ℚ))
        = u.avg_confidence * (u.usage_count : ℚ) + confs.sum := by
  induction confs with
  | nil => intro u; simp
  | cons c rest ih =>
    intro u
    simp only [List.foldl_cons, List.length_cons, List.sum_cons]
    obtain ⟨ih1, ih2⟩ := ih (usage_step u c cat)
    have hcount : (usage_step u c cat).usage_count = u.usage_count + 1 := rfl
    have havg : (usage_step u c cat).avg_confidence
        = (u.avg_confidence * (((u.usage_count + 1 : ℕ) : ℚ) - 1) + c)
          / ((u.usage_count + 1 : ℕ) : ℚ) := rfl
    have hstep : (usage_step u c cat).avg_confidence * ((u.usage_count : ℚ) + 1)
        = u.avg_confidence * (u.usage_count : ℚ) + c := by
      rw [havg]
      have hne : ((u.usage_count : ℚ) + 1) ≠ 0 := by positivity
      push_cast
      field_simp
    constructor
    · rw [ih1, hcount]; omega
    · rw [hcount] at ih2
      push_cast at ih2 ⊢
      nlinarith [ih2, hstep]

theorem log_selection_fold_get (pid cat : String) (rest : List ℚ) :
    ∀ (stats : List (String × UsageStats)) (u : UsageStats),
      alist_get stats pid = some u →
      alist_get (rest.foldl (fun st c => log_selection_update st pid c cat) stats) pid
        = some (rest.foldl (fun a c => usage_step a c cat) u) := by
  induction rest with
  | nil => intro stats u h; simpa using h
  | cons c cs ih =>
    intro stats u h
    simp only [List.foldl_cons]
    apply ih
    unfold log_selection_update
    rw [h]
    simp [alist_get_insert]

/-- Claim C7 (confirmed): starting from a dispatcher with no stats for a
persona, logging n selections with confidence scores s₁..sₙ through
`_log_persona_selection`'s incremental update `(avg·(n−1)+sₙ)/n` leaves
`persona_usage_stats[p].avg_confidence` equal to the arithmetic mean
(s₁+…+sₙ)/n — exactly, since the embedding computes in ℚ. -/
theorem avg_confidence_is_running_mean (pid cat : String) (confs : List ℚ)
    (hne : confs ≠ []) :
    ∃ u : UsageStats,
      alist_get (confs.foldl (fun st c => log_selection_update st pid c cat) []) pid = some u ∧
      u.usage_count = confs.length ∧
      u.avg_confidence = confs.sum / (confs.length : ℚ) := by
  cases confs with
  | nil => exact absurd rfl hne
  | cons c rest =>
    have h1 : alist_get (log_selection_update [] pid c cat) pid
        = some (usage_step init_usage_stats c cat) := by
      unfold log_selection_update
      simp [alist_get, alist_insert, List.find?]
    have h2 := log_selection_fold_get pid cat rest _ _ h1
    obtain ⟨hc, ha⟩ := usage_step_fold_invariant cat rest (usage_step init_usage_stats c cat)
    have hcount0 : (usage_step init_usage_stats c cat).usage_count = 1 := rfl
    have havg0 : (usage_step init_usage_stats c cat).avg_confidence = c := by
      show (init_usage_stats.avg_confidence * (((0 + 1 : ℕ) : ℚ) - 1) + c)
          / ((0 + 1 : ℕ) : ℚ) = c
      norm_num [init_usage_stats]
    refine ⟨_, by simpa using h2, ?_, ?_⟩
    · rw [hc, hcount0]
      simp [List.length_cons]
      omega
    · rw [hcount0, havg0] at ha
      have hlen : (((c :: rest).length : ℕ) : ℚ) ≠ 0 := by
        simp only [List.length_cons]
        push_cast
        positivity
      rw [eq_div_iff hlen]
      simp only [List.length_cons, List.sum_cons]
      push_cast at ha ⊢
      linarith

/-- Witness for C7 at the concrete score list [1/2, 1/4]. -/
theorem avg_confidence_is_running_mean_witness :
    ([(1 : ℚ)/2, 1/4] ≠ ([] : List ℚ)) ∧
    ∃ u : UsageStats,
      alist_get ([(1 : ℚ)/2, 1/4].foldl
        (fun st c => log_selection_update st "tech_expert" c "technical") []) "tech_expert"
        = some u ∧
      u.usage_count = [(1 : ℚ)/2, 1/4].length ∧
      u.avg_confidence = [(1 : ℚ)/2, 1/4].sum / (([(1 : ℚ)/2, 1/4].length : ℚ)) :=
  ⟨by simp,
   avg_confidence_is_running_mean "tech_expert" "technical" [(1 : ℚ)/2, 1/4] (by simp)⟩

/-! ## Claim C8 -/

/-- Claim C8 (confirmed): `set_confidence_threshold` raises `ValueError`
for every threshold below 0 or above 1 — leaving the whole dispatcher
state, including the stored threshold, untouched — and stores the value
and returns normally for every threshold in [0,1]. -/
theorem set_confidence_threshold_spec (st : DispatcherState) (x : ℚ) :
    ((x < 0 ∨ 1 < x) → set_confidence_threshold st x = (st, true)) ∧
    (0 ≤ x → x ≤ 1 →
      set_confidence_threshold st x = ({ st with confidence_threshold := x }, false)) := by
  constructor
  · intro h
    unfold set_confidence_threshold
    rw [if_neg]
    rcases h with h | h
    · exact fun hc => absurd hc.1 (not_le.mpr h)
    · exact fun hc => absurd hc.2 (not_le.mpr h)
  · intro h0 h1
    unfold set_confidence_threshold
    rw [if_pos ⟨h0, h1⟩]

/-- Witness for C8: rejection at 2 leaves the initial state unchanged,
acceptance at 1/2 stores 1/2. -/
theorem set_confidence_threshold_spec_witness :
    set_confidence_threshold init_dispatcher_state 2 = (init_dispatcher_state, true) ∧
    set_confidence_threshold init_dispatcher_state (1/2)
      = ({ init_dispatcher_state with confidence_threshold := 1/2 }, false) :=
  ⟨(set_confidence_threshold_spec init_dispatcher_state 2).1 (Or.inr (by norm_num)),
   (set_confidence_threshold_spec init_dispatcher_state (1/2)).2 (by norm_num) (by norm_num)⟩

/-! ## Claim C9 -/

theorem selection_entry_no_auto_generated (timestamp td cat pid : String) (conf : ℚ)
    (dom cplx aud : String) :
    py_get (mk_selection_log_entry timestamp td cat pid conf dom cplx aud)
      "auto_generated" (.boolean false) = .boolean false := rfl

theorem completion_entry_no_auto_generated (task result pid timestamp : String)
    (context_updated : Bool) :
    py_get (mk_completion_log_entry task result pid timestamp context_updated)
      "auto_generated" (.boolean false) = .boolean false := rfl

/-- Claim C9 (confirmed): both writers of `task_history` —
`_log_persona_selection` and `complete_task_with_context_update` — append
dicts with fixed key sets that never include `auto_generated`, so
`entry.get("auto_generated", False)` is false for every entry and the
`auto_generated_used` counter of `get_selection_analytics` is 0 in every
reachable state, auto-generated selections included. -/
theorem auto_generated_used_always_zero (history : List (List (String × PyValue)))
    (hshape : ∀ e ∈ history,
      (∃ t td cat pid conf dom cplx aud,
        e = mk_selection_log_entry t td cat pid conf dom cplx aud) ∨
      (∃ task result pid t cu, e = mk_completion_log_entry task result pid t cu)) :
    auto_generated_used_count history = 0 := by
  unfold auto_generated_used_count
  rw [List.length_eq_zero, List.filter_eq_nil_iff]
  intro e he
  rcases hshape e he with ⟨t, td, cat, pid, conf, dom, cplx, aud, rfl⟩
    | ⟨task, result, pid, t, cu, rfl⟩
  · simp [selection_entry_no_auto_generated, PyValue.truthy]
  · simp [completion_entry_no_auto_generated, PyValue.truthy]

/-- Witness for C9 at a two-entry history holding one selection-log entry
and one completion entry. -/
theorem auto_generated_used_always_zero_witness :
    (∀ e ∈ [mk_selection_log_entry "t0" "debug code" "technical" "tech_expert" (3/4)
              "technology" "medium" "general",
            mk_completion_log_entry "debug code" "done" "tech_expert" "t1" true],
      (∃ t td cat pid conf dom cplx aud,
        e = mk_selection_log_entry t td cat pid conf dom cplx aud) ∨
      (∃ task result pid t cu, e = mk_completion_log_entry task result pid t cu)) ∧
    auto_generated_used_count
      [mk_selection_log_entry "t0" "debug code" "technical" "tech_expert" (3/4)
         "technology" "medium" "general",
       mk_completion_log_entry "debug code" "done" "tech_expert" "t1" true] = 0 := by
  have hyp : ∀ e ∈ [mk_selection_log_entry "t0" "debug code" "technical" "tech_expert" (3/4)
        "technology" "medium" "general",
      mk_completion_log_entry "debug code" "done" "tech_expert" "t1" true],
      (∃ t td cat pid conf dom cplx aud,
        e = mk_selection_log_entry t td cat pid conf dom cplx aud) ∨
      (∃ task result pid t cu, e = mk_completion_log_entry task result pid t cu) := by
    intro e he
    simp only [List.mem_cons, List.not_mem_nil, or_false] at he
    rcases he with rfl | rfl
    · exact Or.inl ⟨_, _, _, _, _, _, _, _, rfl⟩
    · exact Or.inr ⟨_, _, _, _, _, rfl⟩
  exact ⟨hyp, auto_generated_used_always_zero _ hyp⟩

/-! ## Claim C10 -/

/-- Claim C10 (confirmed): `record_feedback` performs no range check on
`feedback_score` — the embedding is a total function of an arbitrary
integer score, faithfully mirroring a body with no validation and no
raising operation — and for every score (0 and 42 included) it appends the
entry with the raw score to `feedback_history`, folds the raw value into
`average_feedback` (average × count = sum of all stored scores, the new
one included), and counts the entry toward `success_rate` exactly when the
score is ≥ 4. -/
theorem record_feedback_no_validation (st : DispatcherState)
    (timestamp task pid comment : String) (s : ℤ) :
    ∃ m : PerformanceMetrics,
      alist_get (record_feedback st timestamp task pid s comment).performance_metrics pid
        = some m ∧
      m.feedback_scores
        = ((alist_get st.performance_metrics pid).getD init_performance_metrics).feedback_scores
          ++ [s] ∧
      m.average_feedback * ((m.feedback_scores.length : ℕ) : ℚ)
        = (m.feedback_scores.map (fun x => (x : ℚ))).sum ∧
      m.success_rate * ((m.feedback_scores.length : ℕ) : ℚ)
        = ((((alist_get st.performance_metrics pid).getD
              init_performance_metrics).feedback_scores.filter (fun x => 4 ≤ x)).length : ℚ)
          + (if 4 ≤ s then 1 else 0) ∧
      (record_feedback st timestamp task pid s comment).feedback_history
        = st.feedback_history ++
          [{ timestamp := timestamp, task_description := task, selected_persona := pid,
             feedback_score := s, feedback_comment := comment,
             task_category := (classify_task (analyze_task task "")).value }] := by
  set old := (alist_get st.performance_metrics pid).getD init_performance_metrics with hold
  have hlen : (((old.feedback_scores ++ [s]).length : ℕ) : ℚ) ≠ 0 := by
    simp only [List.length_append, List.length_cons, List.length_nil]
    push_cast
    positivity
  refine ⟨_, alist_get_insert _ _ _, rfl, ?_, ?_, rfl⟩
  · show ((((old.feedback_scores ++ [s]).map (fun x => (x : ℚ))).sum)
        / (((old.feedback_scores ++ [s]).length : ℕ) : ℚ))
        * (((old.feedback_scores ++ [s]).length : ℕ) : ℚ)
      = ((old.feedback_scores ++ [s]).map (fun x => (x : ℚ))).sum
    exact div_mul_cancel₀ _ hlen
  · show ((((old.feedback_scores ++ [s]).filter (fun x => 4 ≤ x)).length : ℚ)
        / (((old.feedback_scores ++ [s]).length : ℕ) : ℚ))
        * (((old.feedback_scores ++ [s]).length : ℕ) : ℚ)
      = ((old.feedback_scores.filter (fun x => 4 ≤ x)).length : ℚ)
        + (if 4 ≤ s then 1 else 0)
    rw [div_mul_cancel₀ _ hlen]
    rw [List.filter_append]
    by_cases hs : 4 ≤ s
    · simp [hs]
    · simp [hs]

end PersonaMgr
